import Mathlib

set_option maxRecDepth 2048

/-!
Verification of the NSF memory subsystem of `src/software/esp32/main/nsf.c`
(header parser, NES memory image, bank-switched ROM cache with LRU eviction,
bus callbacks `read6502`/`write6502`, trampoline synthesis).

Modelling conventions:
* C arrays of bytes are modelled as functions `Nat → Nat`; entries are bytes
  (values `< 256`) whenever they originate from file data or `uint8_t` stores.
* The `FILE *` handle is a `ByteFile` (a size plus a byte-at-offset function);
  `fseek`+`fread` become `writeRead`, which truncates the request at EOF
  exactly as `fread` does for a regular file.
* Bit masks on machine integers are translated arithmetically, which is exact:
  `x & 0x0FFF = x % 4096`, `(x & 0x7000) >> 12 = x / 4096 % 8` (for the
  operands these expressions are applied to), `(uint8_t)(x & 0x00FF) = x % 256`
  and `(uint8_t)((x & 0xFF00) >> 8) = x / 256 % 256`, and on a `uint8_t` buffer
  `buf[n] | (buf[n+1] << 8) = buf[n] + 256 * buf[n+1]`.
* `esp_err_t` return values are the inductive `EspErr`
  (`ESP_OK` / `ESP_FAIL` / `ESP_ERR_INVALID_ARG` / ...).
* The side effects of `write6502` (APU callback invocations and calls into
  `nsf_load_rom_bank`) are returned as an explicit `Event` list.
* The 6502 CPU core (`reset6502` / `step6502` / `get6502_pc`) is an external
  black box; it touches this module's state only through `read6502` and
  `write6502`.
-/

/-- A byte-addressed file: `size` bytes, `data j` is the byte at offset `j`
(only offsets below `size` are ever produced by a read). Models the `FILE *`
handle that `nsf.c` seeks and reads. -/
structure ByteFile where
  size : Nat
  data : Nat → Nat

/-- ESP-IDF error codes used by `nsf.c`: `ESP_OK`, `ESP_FAIL`,
`ESP_ERR_INVALID_ARG`, `ESP_ERR_INVALID_STATE`, `ESP_ERR_NO_MEM`. -/
inductive EspErr where
  | ok
  | fail
  | invalidArg
  | invalidState
  | noMem
  deriving DecidableEq

/-- Observable side effects of `write6502`: an APU callback invocation
`apu_write_cb(address, value)`, or a call to `nsf_load_rom_bank(reg, bank)`. -/
inductive Event where
  | apuWrite (address value : Nat)
  | bankLoad (reg bank : Nat)
  deriving DecidableEq

/-- Array update: C `a[i] = v` on an array modelled as a function. -/
def updFn {α : Type} (f : Nat → α) (i : Nat) (v : α) : Nat → α :=
  fun j => if j = i then v else f j

/-- First index `j` in `[i, i + fuel)` with `p j`, scanning upward: the shape
of the `for (i = ..; i < N; i++) { if (..) break; }` search loops in `nsf.c`. -/
def findIdx (p : Nat → Bool) : Nat → Nat → Option Nat
  | _, 0 => none
  | i, fuel + 1 => if p i then some i else findIdx p (i + 1) fuel

/-- Number of bytes `fread(_, 1, len, file)` returns after seeking to `off`:
the request truncated at end of file. -/
def freadLen (file : ByteFile) (off len : Nat) : Nat :=
  min len (file.size - off)

/-- `fseek(file, off)` followed by `fread(buf + base, 1, len, file)`: bytes
`[off, off + freadLen)` of the file land at `base`; the rest of the buffer
keeps its contents. -/
def writeRead (buf : Nat → Nat) (base : Nat) (file : ByteFile) (off len : Nat) :
    Nat → Nat :=
  fun j =>
    if base ≤ j ∧ j < base + freadLen file off len then file.data (off + (j - base))
    else buf j

/-- The byte of `file` at offset `j`, zero past end of file. -/
def fileByteD (file : ByteFile) (j : Nat) : Nat :=
  if j < file.size then file.data j else 0

/-- Contents of a 32-byte string field copied with `strncpy` and then
hard-terminated at index 31: the bytes before the first NUL among the first
31 bytes at `start`. -/
def cString (file : ByteFile) (start : Nat) : List Nat :=
  ((List.range 31).map fun i => file.data (start + i)).takeWhile fun b => b != 0

/-- The parsed 128-byte NSF header (`nsf_header_t`). -/
structure NsfHeader where
  version : Nat
  total_songs : Nat
  starting_song : Nat
  load_address : Nat
  init_address : Nat
  play_address : Nat
  name : List Nat
  artist : List Nat
  copyright : List Nat
  play_speed_ntsc : Nat
  bankswitch_init : List Nat
  play_speed_pal : Nat
  pal_ntsc_bits : Nat
  extra_sound_chips : Nat
  extra : List Nat
  deriving DecidableEq

/-- `nsf_read_header_impl` (nsf.c:135-191): read 128 bytes from offset 0; fail
(`-1`, i.e. `ESP_FAIL`, modelled as `none`) on a short read or if the first
five bytes differ from `"NESM\x1A"`; otherwise decode the fields
(16-bit quantities little-endian: `buf[n] | (buf[n+1] << 8)`, which on the
`uint8_t` buffer equals `buf[n] + 256 * buf[n+1]`). -/
def nsf_read_header_impl (file : ByteFile) : Option NsfHeader :=
  if file.size < 128 then none
  else if file.data 0 = 0x4E ∧ file.data 1 = 0x45 ∧ file.data 2 = 0x53 ∧
      file.data 3 = 0x4D ∧ file.data 4 = 0x1A then
    some {
      version := file.data 5
      total_songs := file.data 6
      starting_song := file.data 7
      load_address := file.data 8 + 256 * file.data 9
      init_address := file.data 10 + 256 * file.data 11
      play_address := file.data 12 + 256 * file.data 13
      name := cString file 14
      artist := cString file 46
      copyright := cString file 78
      play_speed_ntsc := file.data 110 + 256 * file.data 111
      bankswitch_init := (List.range 8).map fun i => file.data (112 + i)
      play_speed_pal := file.data 120 + 256 * file.data 121
      pal_ntsc_bits := file.data 122
      extra_sound_chips := file.data 123
      extra := (List.range 4).map fun i => file.data (124 + i) }
  else none

/-- `nsf_nes_memory_t` (nsf.c:21-48). `rom_block i` is the `uint8_t *` window
pointer, modelled as `none` for `NULL` or `some base` for `rom + base`. The
LRU list `rom_bank_use_order` holds `int` entries (`-1` = empty). -/
structure NesMemory where
  ram : Nat → Nat
  prg : Nat → Nat
  apu_regs : Nat → Nat
  bank_regs : Nat → Nat
  int_vecs : Nat → Nat
  rom_block : Nat → Option Nat
  rom_block_bank_id : Nat → Nat
  rom : Nat → Nat
  rom_bank_id : Nat → Nat
  rom_bank_loaded : Nat → Nat
  rom_bank_use_order : Nat → Int

/-- `struct nsf_file_t` (nsf.c:50-55). The APU callback is modelled by the
flag `apu_cb_installed` (whether `apu_write_cb` is non-NULL); its invocations
are reported as `Event.apuWrite`. -/
structure NsfFile where
  file : ByteFile
  header : NsfHeader
  nes_memory : NesMemory
  apu_cb_installed : Bool

/-- `mark_rom_bank_used` (nsf.c:268-306): if `bank` is already at the head of
`rom_bank_use_order`, do nothing; if it occurs at index `i ∈ [1, 9]`, rotate
entries `0..i` right by one and put `bank` at the head; otherwise (defensive
branch) refuse if the tail is occupied, else shift the whole list down and
insert `bank` at the head. -/
def mark_rom_bank_used (m : NesMemory) (bank : Nat) : NesMemory :=
  if m.rom_bank_use_order 0 = (bank : Int) then m
  else
    match findIdx (fun i => m.rom_bank_use_order i == (bank : Int)) 1 9 with
    | some i =>
      { m with rom_bank_use_order := fun j =>
          if j = 0 then (bank : Int)
          else if j ≤ i then m.rom_bank_use_order (j - 1)
          else m.rom_bank_use_order j }
    | none =>
      if m.rom_bank_use_order 9 ≠ -1 then m
      else
        { m with rom_bank_use_order := fun j =>
            if j = 0 then (bank : Int)
            else if j ≤ 9 then m.rom_bank_use_order (j - 1)
            else m.rom_bank_use_order j }

/-- The eviction clean-up loop of `nsf_load_rom_bank` (nsf.c:540-546):
scan the eight windows for the first one whose pointer is non-NULL and whose
`rom_block_bank_id` equals `bank_index` (note: the C code compares the
window's recorded *bank ID* against the evicted *slot index*), clear that
window, and stop (`break`). -/
def clear_evicted_window (m : NesMemory) (bank_index : Nat) : NesMemory :=
  match findIdx (fun i => (m.rom_block i).isSome && (m.rom_block_bank_id i == bank_index)) 0 8 with
  | some w =>
    { m with rom_block := updFn m.rom_block w none,
             rom_block_bank_id := updFn m.rom_block_bank_id w 0 }
  | none => m

/-- Lines 549-576 of `nsf_load_rom_bank`: zero the 4 KiB slot `bank_index`
(`bzero(rom_bank, 4096)`), then read the bank's bytes from the file:
for `bank == 0` seek to `0x080` and read up to `4096 - padding` bytes at slot
offset `padding`; for `bank > 0` seek to `0x080 + (4096 - padding) +
4096 * (bank - 1)` and read up to `4096` bytes at slot offset 0. A short read
at EOF leaves the remainder zero. -/
def nsf_load_bank_data (file : ByteFile) (padding bank bank_index : Nat)
    (rom : Nat → Nat) : Nat → Nat :=
  let base := bank_index * 4096
  let cleared := fun j => if base ≤ j ∧ j < base + 4096 then 0 else rom j
  if bank = 0 then
    writeRead cleared (base + padding) file 0x080 (4096 - padding)
  else
    writeRead cleared base file (0x080 + (4096 - padding) + 4096 * (bank - 1)) 4096

/-- Lines 505-547 of `nsf_load_rom_bank`: choose the slot that will receive a
bank that is not yet cached. Take the first unloaded slot if one exists; with
the cache full, take the slot of the LRU bank `rom_bank_use_order[9]` and
evict it (tail entry cleared to `-1`, slot marked unloaded, its bank ID
zeroed, window clean-up loop run). Returns `none` (C: `ESP_FAIL`) if the tail
is empty or the tail bank is in no slot. -/
def choose_bank_slot (m : NesMemory) : Option (Nat × NesMemory) :=
  match findIdx (fun i => m.rom_bank_loaded i == 0) 0 10 with
  | some bi => some (bi, m)
  | none =>
    let oldest := m.rom_bank_use_order 9
    if oldest = -1 then none
    else
      match findIdx (fun i => (m.rom_bank_id i : Int) == oldest) 0 10 with
      | none => none
      | some bi =>
        let m1 := { m with
          rom_bank_use_order := updFn m.rom_bank_use_order 9 (-1),
          rom_bank_loaded := updFn m.rom_bank_loaded bi 0,
          rom_bank_id := updFn m.rom_bank_id bi 0 }
        some (bi, clear_evicted_window m1 bi)

/-- `nsf_load_rom_bank` (nsf.c:475-590). Registers outside `$5FF8-$5FFF` are
rejected with `ESP_ERR_INVALID_ARG`. If `bank` is already cached, the target
window is pointed at its slot and the bank is touched MRU. Otherwise a slot is
chosen by `choose_bank_slot` (evicting the LRU bank if the cache is full),
zeroed, filled with the bank's bytes from the file (`padding =
load_address & 0x0FFF = load_address % 4096`), the slot and window metadata
are committed, and the bank is touched MRU. -/
def nsf_load_rom_bank (nsf : NsfFile) (reg bank : Nat) : EspErr × NsfFile :=
  if reg < 0x5FF8 ∨ 0x5FFF < reg then (.invalidArg, nsf)
  else
    let m := nsf.nes_memory
    let padding := nsf.header.load_address % 4096
    let target_block := reg - 0x5FF8
    match findIdx (fun i => (m.rom_bank_loaded i != 0) && (m.rom_bank_id i == bank)) 0 10 with
    | some bank_index =>
      let m1 := { m with
        rom_block := updFn m.rom_block target_block (some (bank_index * 4096)),
        rom_block_bank_id := updFn m.rom_block_bank_id target_block bank }
      (.ok, { nsf with nes_memory := mark_rom_bank_used m1 bank })
    | none =>
      match choose_bank_slot m with
      | none => (.fail, nsf)
      | some (bank_index, m2) =>
        let m3 := { m2 with
          rom := nsf_load_bank_data nsf.file padding bank bank_index m2.rom,
          rom_bank_loaded := updFn m2.rom_bank_loaded bank_index 0 }
        let m4 := { m3 with
          rom_bank_loaded := updFn m3.rom_bank_loaded bank_index 1,
          rom_bank_id := updFn m3.rom_bank_id bank_index bank,
          rom_block := updFn m3.rom_block target_block (some (bank_index * 4096)),
          rom_block_bank_id := updFn m3.rom_block_bank_id target_block bank }
        (.ok, { nsf with nes_memory := mark_rom_bank_used m4 bank })

/-- `read6502` (nsf.c:308-334): with no active NSF file the read returns 0;
otherwise the address is decoded to RAM, bootstrap, APU shadow, bank register,
ROM window (`block = (addr & 0x7000) >> 12 = addr / 4096 % 8`, offset
`addr & 0x0FFF = addr % 4096`; an unloaded window reads as 0) or interrupt
vectors. A successful ROM-window read touches the referenced bank MRU, which
is the only way a read mutates state. -/
def read6502 (active : Option NsfFile) (address : Nat) : Nat × Option NsfFile :=
  match active with
  | none => (0, none)
  | some nsf =>
    let m := nsf.nes_memory
    if address ≤ 0x07FF then (m.ram address, some nsf)
    else if 0x1000 ≤ address ∧ address ≤ 0x107F then (m.prg (address - 0x1000), some nsf)
    else if 0x4000 ≤ address ∧ address ≤ 0x4017 then (m.apu_regs (address - 0x4000), some nsf)
    else if 0x5FF8 ≤ address ∧ address ≤ 0x5FFF then (m.bank_regs (address - 0x5FF8), some nsf)
    else if 0x8000 ≤ address ∧ address < 0xFFFA then
      let block_index := address / 4096 % 8
      match m.rom_block block_index with
      | none => (0, some nsf)
      | some base =>
        (m.rom (base + address % 4096),
         some { nsf with nes_memory := mark_rom_bank_used m (m.rom_block_bank_id block_index) })
    else if 0xFFFA ≤ address then (m.int_vecs (address - 0xFFFA), some nsf)
    else (0, some nsf)

/-- `write6502` (nsf.c:336-359): with no active NSF file the write is a no-op.
RAM writes go to RAM. Writes to `$4000-$4017` update the APU shadow and,
except for `$4016`, invoke the APU callback (when installed) with the written
address and value. Writes to `$5FF8-$5FFF` compare against the shadow bank
register: only a differing value updates the register and invokes
`nsf_load_rom_bank`. All other writes are ignored. The returned list records
the callback and bank-load invocations in order. -/
def write6502 (active : Option NsfFile) (address value : Nat) :
    Option NsfFile × List Event :=
  match active with
  | none => (none, [])
  | some nsf =>
    let m := nsf.nes_memory
    if address ≤ 0x07FF then
      (some { nsf with nes_memory := { m with ram := updFn m.ram address value } }, [])
    else if 0x4000 ≤ address ∧ address ≤ 0x4017 then
      let nsf1 := { nsf with nes_memory :=
        { m with apu_regs := updFn m.apu_regs (address - 0x4000) value } }
      if address ≠ 0x4016 then
        (some nsf1, if nsf.apu_cb_installed then [.apuWrite address value] else [])
      else (some nsf1, [])
    else if 0x5FF8 ≤ address ∧ address ≤ 0x5FFF then
      if m.bank_regs (address - 0x5FF8) ≠ value then
        let nsf1 := { nsf with nes_memory :=
          { m with bank_regs := updFn m.bank_regs (address - 0x5FF8) value } }
        (some (nsf_load_rom_bank nsf1 address value).2, [.bankLoad address value])
      else (some nsf, [])
    else (some nsf, [])

/-- `nsf_init_nes_memory` (nsf.c:361-366): `bzero` the whole memory image
(all bytes zero, all window pointers NULL, all LRU entries zero -- note the
`int` array is zeroed, not set to `-1`) and preset `apu_regs[0x17] = 0x40`. -/
def nsf_init_nes_memory (nsf : NsfFile) : NsfFile :=
  { nsf with nes_memory := {
      ram := fun _ => 0
      prg := fun _ => 0
      apu_regs := updFn (fun _ => 0) 0x17 0x40
      bank_regs := fun _ => 0
      int_vecs := fun _ => 0
      rom_block := fun _ => none
      rom_block_bank_id := fun _ => 0
      rom := fun _ => 0
      rom_bank_id := fun _ => 0
      rom_bank_loaded := fun _ => 0
      rom_bank_use_order := fun _ => 0 } }

/-- `nsf_init_nes_prg` (nsf.c:368-405): write the bootstrap trampoline
`LDA #song; LDX #pal_ntsc; JSR init; JSR play; JMP $1007; NOP NOP NOP NOP`
into `prg[0..16]` and set the reset vector `int_vecs[2..3]` to `$1000`
little-endian. Address bytes: `(uint8_t)(a & 0x00FF) = a % 256` and
`(uint8_t)((a & 0xFF00) >> 8) = a / 256 % 256`. -/
def nsf_init_nes_prg (nsf : NsfFile) (song pal_ntsc : Nat) : NsfFile :=
  let m := nsf.nes_memory
  let prg := updFn (updFn (updFn (updFn (updFn (updFn (updFn (updFn (updFn
    (updFn (updFn (updFn (updFn (updFn (updFn (updFn (updFn m.prg
      0 0xA9) 1 song)
      2 0xA2) 3 pal_ntsc)
      4 0x20) 5 (nsf.header.init_address % 256)) 6 (nsf.header.init_address / 256 % 256))
      7 0x20) 8 (nsf.header.play_address % 256)) 9 (nsf.header.play_address / 256 % 256))
      10 0x4C) 11 0x07) 12 0x10)
      13 0xEA) 14 0xEA) 15 0xEA) 16 0xEA
  let int_vecs := updFn (updFn m.int_vecs 2 0x00) 3 0x10
  { nsf with nes_memory := { m with prg := prg, int_vecs := int_vecs } }

/-- `nsf_has_bank_switching` (nsf.c:193-201): true iff some entry of
`bankswitch_init` is non-zero. -/
def nsf_has_bank_switching (nsf : NsfFile) : Bool :=
  (List.range 8).any fun i => nsf.header.bankswitch_init.getD i 0 != 0

/-- `nsf_init_load_nes_rom` (nsf.c:407-443), the contiguous (non-bankswitched)
loader: reject a load address below `$8000` (`ESP_FAIL`), allocate a zeroed
32 KiB buffer, seek to `0x080` and read up to `0xFFFF - load_address` bytes at
buffer offset `load_address - 0x8000`; a zero-byte read is an error, a short
read only a warning; finally point the eight windows at consecutive 4 KiB
slices of the buffer. -/
def nsf_init_load_nes_rom (nsf : NsfFile) : EspErr × NsfFile :=
  if nsf.header.load_address < 0x8000 then (.fail, nsf)
  else
    let offset := nsf.header.load_address - 0x8000
    let max_len := 0xFFFF - nsf.header.load_address
    let m := nsf.nes_memory
    let m1 := { m with rom := fun _ => 0, rom_block := fun _ => none }
    let n := freadLen nsf.file 0x080 max_len
    let m2 := { m1 with rom := writeRead m1.rom offset nsf.file 0x080 max_len }
    if n = 0 then (.fail, { nsf with nes_memory := m2 })
    else
      let m3 := { m2 with rom_block := fun i => if i < 8 then some (i * 4096) else none }
      (.ok, { nsf with nes_memory := m3 })

/-- The loop of `nsf_init_load_nes_rom_banks` (nsf.c:465-470): load
`bankswitch_init[i]` into window register `$5FF8 + i` for each remaining
index, stopping at the first failure. -/
def nsf_load_init_banks : NsfFile → List Nat → EspErr × NsfFile
  | nsf, [] => (.ok, nsf)
  | nsf, i :: rest =>
    let r := nsf_load_rom_bank nsf (0x5FF8 + i) (nsf.header.bankswitch_init.getD i 0)
    if r.1 = .ok then nsf_load_init_banks r.2 rest else r

/-- `nsf_init_load_nes_rom_banks` (nsf.c:445-473): reset the bank cache
(zero the 40 KiB bank storage, clear all slot IDs and loaded flags, set every
LRU entry to `-1`, NULL all window pointers, zero all window bank IDs), then
load the eight initial banks from `bankswitch_init`. -/
def nsf_init_load_nes_rom_banks (nsf : NsfFile) : EspErr × NsfFile :=
  let m := nsf.nes_memory
  let m1 := { m with
    rom := fun _ => 0
    rom_bank_id := fun _ => 0
    rom_bank_loaded := fun _ => 0
    rom_bank_use_order := fun _ => -1
    rom_block := fun _ => none
    rom_block_bank_id := fun _ => 0 }
  nsf_load_init_banks { nsf with nes_memory := m1 } (List.range 8)

/-- The memory-image phase of `nsf_playback_init` (nsf.c:592-618): install the
APU callback, reinitialize the memory image, synthesize the trampoline for
`song` with `pal_ntsc = 0`, and load the ROM (bankswitched or contiguous).
The subsequent `reset6502()` and stepping of the external CPU core interact
with this state only through `read6502`/`write6502`. -/
def nsf_playback_init (nsf : NsfFile) (song : Nat) (apu_cb_installed : Bool) :
    EspErr × NsfFile :=
  let nsf1 := { nsf with apu_cb_installed := apu_cb_installed }
  let nsf2 := nsf_init_nes_memory nsf1
  let nsf3 := nsf_init_nes_prg nsf2 song 0
  if nsf_has_bank_switching nsf3 then nsf_init_load_nes_rom_banks nsf3
  else nsf_init_load_nes_rom nsf3

/-- Invariant P3 at window `i`: the window is empty, or it points at a slot
(`base / 4096`) whose recorded bank ID equals the window's recorded bank ID. -/
def windowConsistentAt (m : NesMemory) (i : Nat) : Bool :=
  match m.rom_block i with
  | none => true
  | some base => m.rom_bank_id (base / 4096) == m.rom_block_bank_id i

/-- Invariant P3 over all eight windows. -/
def windowConsistent (m : NesMemory) : Bool :=
  (List.range 8).all fun i => windowConsistentAt m i

/-- Number of bank-load invocations recorded in an event list. -/
def countBankLoads (events : List Event) : Nat :=
  (events.filter fun e => match e with | .bankLoad _ _ => true | _ => false).length

/-! ### Helper lemmas -/

theorem updFn_self {α : Type} (f : Nat → α) (i : Nat) (v : α) : updFn f i v i = v := by
  simp [updFn]

theorem updFn_ne {α : Type} (f : Nat → α) (i j : Nat) (v : α) (h : j ≠ i) :
    updFn f i v j = f j := by
  simp [updFn, h]

theorem findIdx_eq_none (p : Nat → Bool) (fuel : Nat) :
    ∀ i, (∀ j, i ≤ j → j < i + fuel → p j = false) → findIdx p i fuel = none := by
  induction fuel with
  | zero => intro i _; rfl
  | succ n ih =>
    intro i h
    rw [findIdx, h i le_rfl (by omega)]
    simp only [Bool.false_eq_true, if_false]
    exact ih (i + 1) fun j hj1 hj2 => h j (by omega) (by omega)

theorem findIdx_eq_first (p : Nat → Bool) (fuel : Nat) :
    ∀ i s, i ≤ s → s < i + fuel → p s = true →
      (∀ j, i ≤ j → j < s → p j = false) → findIdx p i fuel = some s := by
  induction fuel with
  | zero => intro i s h1 h2 _ _; omega
  | succ n ih =>
    intro i s h1 h2 hp hpre
    rw [findIdx]
    by_cases hi : i = s
    · subst hi; rw [hp]; simp
    · rw [hpre i le_rfl (by omega)]
      simp only [Bool.false_eq_true, if_false]
      exact ih (i + 1) s (by omega) (by omega) hp fun j hj1 hj2 => hpre j (by omega) hj2

theorem clear_evicted_window_rom_bank_id (m : NesMemory) (bi : Nat) :
    (clear_evicted_window m bi).rom_bank_id = m.rom_bank_id := by
  unfold clear_evicted_window; split <;> rfl

theorem clear_evicted_window_rom_bank_loaded (m : NesMemory) (bi : Nat) :
    (clear_evicted_window m bi).rom_bank_loaded = m.rom_bank_loaded := by
  unfold clear_evicted_window; split <;> rfl

theorem clear_evicted_window_rom_bank_use_order (m : NesMemory) (bi : Nat) :
    (clear_evicted_window m bi).rom_bank_use_order = m.rom_bank_use_order := by
  unfold clear_evicted_window; split <;> rfl

theorem clear_evicted_window_bank_regs (m : NesMemory) (bi : Nat) :
    (clear_evicted_window m bi).bank_regs = m.bank_regs := by
  unfold clear_evicted_window; split <;> rfl

theorem mark_rom_bank_used_bank_regs (m : NesMemory) (bank : Nat) :
    (mark_rom_bank_used m bank).bank_regs = m.bank_regs := by
  unfold mark_rom_bank_used
  split
  · rfl
  · split
    · rfl
    · split <;> rfl

theorem mark_rom_bank_used_rom_bank_id (m : NesMemory) (bank : Nat) :
    (mark_rom_bank_used m bank).rom_bank_id = m.rom_bank_id := by
  unfold mark_rom_bank_used
  split
  · rfl
  · split
    · rfl
    · split <;> rfl

theorem mark_rom_bank_used_rom_bank_loaded (m : NesMemory) (bank : Nat) :
    (mark_rom_bank_used m bank).rom_bank_loaded = m.rom_bank_loaded := by
  unfold mark_rom_bank_used
  split
  · rfl
  · split
    · rfl
    · split <;> rfl

/-- When `bank` is nowhere in the LRU list and the tail is empty,
`mark_rom_bank_used` shifts the list down and inserts `bank` at the head
(the path taken right after an eviction or on a fresh cache). -/
theorem mark_rom_bank_used_insert (m : NesMemory) (bank : Nat)
    (h0 : m.rom_bank_use_order 0 ≠ (bank : Int))
    (hnone : ∀ j, 1 ≤ j → j < 10 → m.rom_bank_use_order j ≠ (bank : Int))
    (htail : m.rom_bank_use_order 9 = -1) :
    mark_rom_bank_used m bank = { m with rom_bank_use_order := fun j =>
      (if j = 0 then (bank : Int)
       else if j ≤ 9 then m.rom_bank_use_order (j - 1)
       else m.rom_bank_use_order j) } := by
  unfold mark_rom_bank_used
  rw [if_neg h0]
  rw [findIdx_eq_none _ 9 1 fun j hj1 hj2 =>
    beq_eq_false_iff_ne.mpr (hnone j hj1 (by omega))]
  simp [htail]

theorem choose_bank_slot_bank_regs (m : NesMemory) (bi : Nat) (m2 : NesMemory)
    (h : choose_bank_slot m = some (bi, m2)) : m2.bank_regs = m.bank_regs := by
  unfold choose_bank_slot at h
  split at h
  · cases h; rfl
  · dsimp only at h
    split at h
    · cases h
    · split at h
      · cases h
      · cases h
        rw [clear_evicted_window_bank_regs]

theorem nsf_load_rom_bank_bank_regs (nsf : NsfFile) (reg bank : Nat) :
    ((nsf_load_rom_bank nsf reg bank).2).nes_memory.bank_regs =
      nsf.nes_memory.bank_regs := by
  unfold nsf_load_rom_bank
  split
  · rfl
  · dsimp only
    split
    · rw [mark_rom_bank_used_bank_regs]
    · split
      · rfl
      · rename_i heq
        dsimp only
        rw [mark_rom_bank_used_bank_regs]
        dsimp only
        exact choose_bank_slot_bank_regs _ _ _ heq

/-- The head of `write6502` specialized to a bank-register address: only a
value differing from the shadow register updates it and calls
`nsf_load_rom_bank`. -/
theorem write6502_bank_register (nsf : NsfFile) (address value : Nat)
    (h1 : 0x5FF8 ≤ address) (h2 : address ≤ 0x5FFF) :
    write6502 (some nsf) address value =
      if nsf.nes_memory.bank_regs (address - 0x5FF8) ≠ value then
        (some (nsf_load_rom_bank
          { nsf with nes_memory := { nsf.nes_memory with
              bank_regs := updFn nsf.nes_memory.bank_regs (address - 0x5FF8) value } }
          address value).2,
         [.bankLoad address value])
      else (some nsf, []) := by
  unfold write6502
  dsimp only
  rw [if_neg (by omega), if_neg (by omega), if_pos ⟨h1, h2⟩]

/-! ### Concrete states used by witnesses and counterexamples -/

/-- The all-zero `nsf_nes_memory_t` (the image right after `bzero`). -/
def zeroNesMemory : NesMemory :=
  { ram := fun _ => 0, prg := fun _ => 0, apu_regs := fun _ => 0,
    bank_regs := fun _ => 0, int_vecs := fun _ => 0,
    rom_block := fun _ => none, rom_block_bank_id := fun _ => 0,
    rom := fun _ => 0, rom_bank_id := fun _ => 0,
    rom_bank_loaded := fun _ => 0, rom_bank_use_order := fun _ => 0 }

/-- A small non-bankswitched header. -/
def baseHeader : NsfHeader :=
  { version := 1, total_songs := 1, starting_song := 1,
    load_address := 0x8000, init_address := 0x8765, play_address := 0x9ABC,
    name := [], artist := [], copyright := [],
    play_speed_ntsc := 16666, bankswitch_init := [0, 0, 0, 0, 0, 0, 0, 0],
    play_speed_pal := 20000, pal_ntsc_bits := 0, extra_sound_chips := 0,
    extra := [0, 0, 0, 0] }

/-- A file holding only a 128-byte header and no body. -/
def emptyFile : ByteFile := { size := 0x80, data := fun _ => 0 }

/-- A baseline open NSF instance with a zeroed memory image. -/
def baseNsf : NsfFile :=
  { file := emptyFile, header := baseHeader, nes_memory := zeroNesMemory,
    apu_cb_installed := true }

/-- Bankswitched instance for the eviction scenarios: initial banks 1..8. -/
def c1_nsf : NsfFile :=
  { baseNsf with header := { baseHeader with bankswitch_init := [1, 2, 3, 4, 5, 6, 7, 8] } }

/-- `c1_nsf` after `nsf_init_load_nes_rom_banks`: slots 0..7 hold banks 1..8,
window `i` points at slot `i`, `use_order = [8,7,6,5,4,3,2,1,-1,-1]`. -/
def c1_after_init : NsfFile := (nsf_init_load_nes_rom_banks c1_nsf).2

/-- `c1_after_init` after loading banks 9 and 10 through register `$5FFF`
(filling slots 8 and 9; the cache is now full and bank 1, still referenced by
window 0, is the LRU tail). -/
def c1_before : NsfFile :=
  (nsf_load_rom_bank (nsf_load_rom_bank c1_after_init 0x5FFF 9).2 0x5FFF 10).2

/-- `c1_before` after loading bank 11 through register `$5FFF`, which evicts
bank 1 from slot 0 and reuses that slot for bank 11. -/
def c1_final : NsfFile := (nsf_load_rom_bank c1_before 0x5FFF 11).2

/-- The 128-byte header buffer of the header round-trip scenario:
`4E 45 53 4D 1A 01 02 01 00 80 00 80 00 80`, zero elsewhere. -/
def c5_file : ByteFile :=
  { size := 128,
    data := fun j =>
      [0x4E, 0x45, 0x53, 0x4D, 0x1A, 1, 2, 1, 0, 0x80, 0, 0x80, 0, 0x80].getD j 0 }

/-- A file shorter than the 128-byte header. -/
def c5_short_file : ByteFile := { size := 100, data := fun _ => 0 }

/-- A 128-byte file whose magic bytes are wrong. -/
def c5_badmagic_file : ByteFile := { size := 128, data := fun _ => 0 }

/-- The header record the parser produces for `c5_file`. -/
def c5_parsed : NsfHeader :=
  { version := 1, total_songs := 2, starting_song := 1,
    load_address := 0x8000, init_address := 0x8000, play_address := 0x8000,
    name := [], artist := [], copyright := [],
    play_speed_ntsc := 0, bankswitch_init := [0, 0, 0, 0, 0, 0, 0, 0],
    play_speed_pal := 0, pal_ntsc_bits := 0, extra_sound_chips := 0,
    extra := [0, 0, 0, 0] }

/-- Header of the contiguous-load scenario: `load = init = play = $8000`,
no bankswitching. -/
def c7_header : NsfHeader :=
  { baseHeader with load_address := 0x8000, init_address := 0x8000, play_address := 0x8000 }

/-- File of the contiguous-load scenario: a 128-byte header followed by a
body of 8192 bytes of `0xAB`. -/
def c7_file : ByteFile :=
  { size := 0x80 + 8192,
    data := fun j => if 0x80 ≤ j ∧ j < 0x80 + 8192 then 0xAB else 0 }

/-- Open instance of the contiguous-load scenario. -/
def c7_nsf : NsfFile :=
  { baseNsf with file := c7_file, header := c7_header }

/-- Instance whose header has a bad load address (`$4000`, below `$8000`). -/
def c9_nsf : NsfFile :=
  { baseNsf with header := { baseHeader with load_address := 0x4000 } }

/-- File for the bank-offset-law witness: 5000 body bytes `(j + 1) % 250`. -/
def c6_file : ByteFile :=
  { size := 0x80 + 5000, data := fun j => (j + 1) % 250 }

/-! ### Claims -/

/-- C10: when no NSF instance is active (`active_nsf_file == NULL`), the bus
callbacks are total no-ops: `read6502` returns 0 for every address, and
`write6502` changes no state and records no APU-callback or bank-load event. -/
theorem c10_inactive_bus_noop (address value : Nat) :
    read6502 none address = (0, none) ∧ write6502 none address value = (none, []) :=
  ⟨rfl, rfl⟩

/-- C9 (counterexample): `nsf_init_load_nes_rom` on a header with
`load_address = $4000 < $8000` fails with the generic `ESP_FAIL`, not with
`ESP_ERR_INVALID_ARG` as the claim states (the state is left untouched). -/
theorem c9_load_address_error_counterexample :
    nsf_init_load_nes_rom c9_nsf = (EspErr.fail, c9_nsf) ∧
    EspErr.fail ≠ EspErr.invalidArg := by
  constructor
  · rw [nsf_init_load_nes_rom, if_pos (by decide)]
  · decide

/-- C9 (amended): a bank load with a register outside `$5FF8-$5FFF` fails
with `ESP_ERR_INVALID_ARG`, and a ROM load with `load_address < $8000` fails
with the generic `ESP_FAIL`; in both cases the instance is returned
completely unchanged (no memory-image state used by subsequent reads is
updated). -/
theorem c9_invalid_argument_amended :
    (∀ (nsf : NsfFile) (reg bank : Nat), reg < 0x5FF8 ∨ 0x5FFF < reg →
      nsf_load_rom_bank nsf reg bank = (EspErr.invalidArg, nsf)) ∧
    (∀ nsf : NsfFile, nsf.header.load_address < 0x8000 →
      nsf_init_load_nes_rom nsf = (EspErr.fail, nsf)) := by
  constructor
  · intro nsf reg bank h
    rw [nsf_load_rom_bank, if_pos h]
  · intro nsf h
    rw [nsf_init_load_nes_rom, if_pos h]

/-- Witness for C9 (amended) at a register below `$5FF8` and at the `$4000`
load address. -/
theorem c9_invalid_argument_amended_witness :
    nsf_load_rom_bank baseNsf 0x4000 3 = (EspErr.invalidArg, baseNsf) ∧
    nsf_init_load_nes_rom c9_nsf = (EspErr.fail, c9_nsf) :=
  ⟨c9_invalid_argument_amended.1 baseNsf 0x4000 3 (by decide),
   c9_invalid_argument_amended.2 c9_nsf (by decide)⟩

/-- C5: the header parser reads exactly the 128 header bytes and fails on a
short file; it fails when the magic bytes differ from `"NESM\x1A"`; on
success the three 16-bit addresses and the two play-speed fields are decoded
little-endian; and on the concrete 128-byte buffer starting
`4E 45 53 4D 1A 01 02 01 00 80 00 80 00 80` (zero elsewhere) it yields
`version = 1`, `total_songs = 2`, `starting_song = 1`, `load = init = play =
$8000`. -/
theorem c5_header_parsing :
    (∀ file : ByteFile, file.size < 128 → nsf_read_header_impl file = none) ∧
    (∀ file : ByteFile,
      ¬(file.data 0 = 0x4E ∧ file.data 1 = 0x45 ∧ file.data 2 = 0x53 ∧
        file.data 3 = 0x4D ∧ file.data 4 = 0x1A) →
      nsf_read_header_impl file = none) ∧
    (∀ (file : ByteFile) (h : NsfHeader), nsf_read_header_impl file = some h →
      h.load_address = file.data 8 + 256 * file.data 9 ∧
      h.init_address = file.data 10 + 256 * file.data 11 ∧
      h.play_address = file.data 12 + 256 * file.data 13 ∧
      h.play_speed_ntsc = file.data 110 + 256 * file.data 111 ∧
      h.play_speed_pal = file.data 120 + 256 * file.data 121) ∧
    nsf_read_header_impl c5_file = some c5_parsed := by
  refine ⟨?_, ?_, ?_, ?_⟩
  · intro file hshort
    rw [nsf_read_header_impl, if_pos hshort]
  · intro file hmagic
    rw [nsf_read_header_impl]
    by_cases hs : file.size < 128
    · rw [if_pos hs]
    · rw [if_neg hs, if_neg hmagic]
  · intro file h heq
    rw [nsf_read_header_impl] at heq
    split at heq
    · exact absurd heq (by simp)
    · split at heq
      · cases heq
        exact ⟨rfl, rfl, rfl, rfl, rfl⟩
      · exact absurd heq (by simp)
  · decide

/-- Witness for C5 at the concrete buffers. -/
theorem c5_header_parsing_witness :
    nsf_read_header_impl c5_short_file = none ∧
    nsf_read_header_impl c5_badmagic_file = none ∧
    (c5_parsed.load_address = c5_file.data 8 + 256 * c5_file.data 9 ∧
     c5_parsed.init_address = c5_file.data 10 + 256 * c5_file.data 11 ∧
     c5_parsed.play_address = c5_file.data 12 + 256 * c5_file.data 13 ∧
     c5_parsed.play_speed_ntsc = c5_file.data 110 + 256 * c5_file.data 111 ∧
     c5_parsed.play_speed_pal = c5_file.data 120 + 256 * c5_file.data 121) :=
  ⟨c5_header_parsing.1 c5_short_file (by decide),
   c5_header_parsing.2.1 c5_badmagic_file (by decide),
   c5_header_parsing.2.2.1 c5_file c5_parsed (by decide)⟩

/-- C4: for a CPU write with an installed APU callback to an address in
`$4000-$4017`, the APU shadow register is updated with the written value;
a write to `$4016` never invokes the callback, while a write to any other
address in the range invokes it exactly once with exactly the written
`(address, value)` pair. -/
theorem c4_apu_write_masking (nsf : NsfFile) (address value : Nat)
    (hcb : nsf.apu_cb_installed = true)
    (h1 : 0x4000 ≤ address) (h2 : address ≤ 0x4017) :
    (∃ nsf1 : NsfFile, (write6502 (some nsf) address value).1 = some nsf1 ∧
      nsf1.nes_memory.apu_regs (address - 0x4000) = value) ∧
    (address = 0x4016 → (write6502 (some nsf) address value).2 = []) ∧
    (address ≠ 0x4016 →
      (write6502 (some nsf) address value).2 = [Event.apuWrite address value]) := by
  by_cases ha : address = 0x4016
  · have heq : write6502 (some nsf) address value =
        (some { nsf with nes_memory := { nsf.nes_memory with
            apu_regs := updFn nsf.nes_memory.apu_regs (address - 0x4000) value } }, []) := by
      unfold write6502
      dsimp only
      rw [if_neg (by omega), if_pos ⟨h1, h2⟩, if_neg (by simp [ha])]
    rw [heq]
    refine ⟨⟨_, rfl, ?_⟩, fun _ => rfl, fun hne => absurd ha hne⟩
    dsimp only
    exact updFn_self _ _ _
  · have heq : write6502 (some nsf) address value =
        (some { nsf with nes_memory := { nsf.nes_memory with
            apu_regs := updFn nsf.nes_memory.apu_regs (address - 0x4000) value } },
         [Event.apuWrite address value]) := by
      unfold write6502
      dsimp only
      rw [if_neg (by omega), if_pos ⟨h1, h2⟩, if_pos ha, hcb]
      simp
    rw [heq]
    refine ⟨⟨_, rfl, ?_⟩, fun h => absurd h ha, fun _ => rfl⟩
    dsimp only
    exact updFn_self _ _ _

/-- Witness for C4 at address `$4000`, value 7, and at the suppressed
address `$4016`. -/
theorem c4_apu_write_masking_witness :
    ((∃ nsf1 : NsfFile, (write6502 (some baseNsf) 0x4000 7).1 = some nsf1 ∧
        nsf1.nes_memory.apu_regs (0x4000 - 0x4000) = 7) ∧
      ((0x4000 : Nat) = 0x4016 → (write6502 (some baseNsf) 0x4000 7).2 = []) ∧
      ((0x4000 : Nat) ≠ 0x4016 →
        (write6502 (some baseNsf) 0x4000 7).2 = [Event.apuWrite 0x4000 7])) ∧
    ((∃ nsf1 : NsfFile, (write6502 (some baseNsf) 0x4016 9).1 = some nsf1 ∧
        nsf1.nes_memory.apu_regs (0x4016 - 0x4000) = 9) ∧
      ((0x4016 : Nat) = 0x4016 → (write6502 (some baseNsf) 0x4016 9).2 = []) ∧
      ((0x4016 : Nat) ≠ 0x4016 →
        (write6502 (some baseNsf) 0x4016 9).2 = [Event.apuWrite 0x4016 9])) :=
  ⟨c4_apu_write_masking baseNsf 0x4000 7 rfl (by decide) (by decide),
   c4_apu_write_masking baseNsf 0x4016 9 rfl (by decide) (by decide)⟩

/-- C6: the bytes `nsf_load_rom_bank` places into slot `bank_index` (after
zeroing it) obey the offset law: for `bank > 0` slot offset `j` holds the
file byte at `0x80 + (4096 - padding) + 4096 * (bank - 1) + j`; for
`bank == 0` offsets below `padding` stay zero and offset `j ≥ padding` holds
the file byte at `0x80 + (j - padding)`; bytes past EOF stay zero. -/
theorem c6_bank_offset_law (file : ByteFile) (padding bank bank_index j : Nat)
    (rom : Nat → Nat) (hp : padding < 4096) (hj : j < 4096) :
    nsf_load_bank_data file padding bank bank_index rom (bank_index * 4096 + j) =
      if bank = 0 then
        (if j < padding then 0 else fileByteD file (0x080 + (j - padding)))
      else fileByteD file (0x080 + (4096 - padding) + 4096 * (bank - 1) + j) := by
  unfold nsf_load_bank_data writeRead freadLen fileByteD
  dsimp only
  by_cases hb : bank = 0
  · rw [if_pos hb, if_pos hb]
    split
    · rename_i hin
      rw [if_neg (by omega), if_pos (by omega)]
      congr 1
      omega
    · rename_i hout
      rw [if_pos (by omega)]
      split
      · rfl
      · rw [if_neg (by omega)]
  · rw [if_neg hb, if_neg hb]
    split
    · rename_i hin
      rw [if_pos (by omega)]
      congr 1
      omega
    · rename_i hout
      rw [if_pos (by omega), if_neg (by omega)]

/-- Witness for C6: bank 1 into slot 2 with padding 16, slot offset 5. -/
theorem c6_bank_offset_law_witness :
    (16 : Nat) < 4096 ∧ (5 : Nat) < 4096 ∧
    nsf_load_bank_data c6_file 16 1 2 (fun _ => 99) (2 * 4096 + 5) =
      if (1 : Nat) = 0 then
        (if (5 : Nat) < 16 then 0 else fileByteD c6_file (0x080 + (5 - 16)))
      else fileByteD c6_file (0x080 + (4096 - 16) + 4096 * (1 - 1) + 5) :=
  ⟨by decide, by decide, c6_bank_offset_law c6_file 16 1 2 5 (fun _ => 99) (by decide) (by decide)⟩

/-- C8: after the memory-image phase of `playback_init(song)` with
`pal_ntsc = 0`, the bootstrap holds exactly
`A9 song, A2 00, 20 init_lo init_hi, 20 play_lo play_hi, 4C 07 10,
EA EA EA EA` (so the `JSR play_address` opcode sits at `$1000 + 7 = $1007`
and the `JMP` operand is `$1007`), the rest of the bootstrap is zero, and
the reset vector bytes (`int_vecs[2..3]`, i.e. `$FFFC-$FFFD`) hold `$1000`
little-endian. -/
theorem c8_trampoline_layout (nsf : NsfFile) (song : Nat)
    (hi : nsf.header.init_address < 65536) (hp : nsf.header.play_address < 65536) :
    (nsf_init_nes_prg (nsf_init_nes_memory nsf) song 0).nes_memory.prg 0 = 0xA9 ∧
    (nsf_init_nes_prg (nsf_init_nes_memory nsf) song 0).nes_memory.prg 1 = song ∧
    (nsf_init_nes_prg (nsf_init_nes_memory nsf) song 0).nes_memory.prg 2 = 0xA2 ∧
    (nsf_init_nes_prg (nsf_init_nes_memory nsf) song 0).nes_memory.prg 3 = 0 ∧
    (nsf_init_nes_prg (nsf_init_nes_memory nsf) song 0).nes_memory.prg 4 = 0x20 ∧
    (nsf_init_nes_prg (nsf_init_nes_memory nsf) song 0).nes_memory.prg 5 +
      256 * (nsf_init_nes_prg (nsf_init_nes_memory nsf) song 0).nes_memory.prg 6 =
      nsf.header.init_address ∧
    (nsf_init_nes_prg (nsf_init_nes_memory nsf) song 0).nes_memory.prg 7 = 0x20 ∧
    (nsf_init_nes_prg (nsf_init_nes_memory nsf) song 0).nes_memory.prg 8 +
      256 * (nsf_init_nes_prg (nsf_init_nes_memory nsf) song 0).nes_memory.prg 9 =
      nsf.header.play_address ∧
    (nsf_init_nes_prg (nsf_init_nes_memory nsf) song 0).nes_memory.prg 10 = 0x4C ∧
    (nsf_init_nes_prg (nsf_init_nes_memory nsf) song 0).nes_memory.prg 11 +
      256 * (nsf_init_nes_prg (nsf_init_nes_memory nsf) song 0).nes_memory.prg 12 =
      0x1007 ∧
    (nsf_init_nes_prg (nsf_init_nes_memory nsf) song 0).nes_memory.prg 13 = 0xEA ∧
    (nsf_init_nes_prg (nsf_init_nes_memory nsf) song 0).nes_memory.prg 14 = 0xEA ∧
    (nsf_init_nes_prg (nsf_init_nes_memory nsf) song 0).nes_memory.prg 15 = 0xEA ∧
    (nsf_init_nes_prg (nsf_init_nes_memory nsf) song 0).nes_memory.prg 16 = 0xEA ∧
    (∀ j, 17 ≤ j →
      (nsf_init_nes_prg (nsf_init_nes_memory nsf) song 0).nes_memory.prg j = 0) ∧
    (nsf_init_nes_prg (nsf_init_nes_memory nsf) song 0).nes_memory.int_vecs 2 = 0x00 ∧
    (nsf_init_nes_prg (nsf_init_nes_memory nsf) song 0).nes_memory.int_vecs 3 = 0x10 := by
  unfold nsf_init_nes_prg nsf_init_nes_memory
  dsimp only
  refine ⟨?_, ?_, ?_, ?_, ?_, ?_, ?_, ?_, ?_, ?_, ?_, ?_, ?_, ?_, ?_, ?_, ?_⟩
  all_goals first
    | (intro j hj
       simp only [updFn]
       repeat rw [if_neg (by omega)])
    | (simp [updFn]; omega)
    | simp [updFn]

/-- Witness for C8 at `song = 3` on the baseline instance
(`init = $8765`, `play = $9ABC`). -/
theorem c8_trampoline_layout_witness :
    baseNsf.header.init_address < 65536 ∧ baseNsf.header.play_address < 65536 ∧
    ((nsf_init_nes_prg (nsf_init_nes_memory baseNsf) 3 0).nes_memory.prg 0 = 0xA9 ∧
     (nsf_init_nes_prg (nsf_init_nes_memory baseNsf) 3 0).nes_memory.prg 1 = 3 ∧
     (nsf_init_nes_prg (nsf_init_nes_memory baseNsf) 3 0).nes_memory.prg 5 +
       256 * (nsf_init_nes_prg (nsf_init_nes_memory baseNsf) 3 0).nes_memory.prg 6 =
       baseNsf.header.init_address ∧
     (nsf_init_nes_prg (nsf_init_nes_memory baseNsf) 3 0).nes_memory.int_vecs 3 = 0x10) := by
  have h := c8_trampoline_layout baseNsf 3 (by decide) (by decide)
  obtain ⟨h1, h2, -, -, -, h6, -, -, -, -, -, -, -, -, -, -, h17⟩ := h
  exact ⟨by decide, by decide, h1, h2, h6, h17⟩

/-- Evaluation of the contiguous loader for any load address at or above
`$8000`: with a zero-byte read the loader fails with `ESP_FAIL` (nsf.c:431);
with at least one byte it succeeds, points the eight windows at consecutive
4 KiB slices, and the buffer holds the file bytes from `0x080` at offset
`load_address - 0x8000` (up to `0xFFFF - load_address` of them, zero past EOF
and elsewhere). -/
theorem nsf_init_load_nes_rom_eval (f : NsfFile)
    (h : 0x8000 ≤ f.header.load_address) :
    (freadLen f.file 0x080 (0xFFFF - f.header.load_address) = 0 →
      (nsf_init_load_nes_rom f).1 = EspErr.fail) ∧
    (freadLen f.file 0x080 (0xFFFF - f.header.load_address) ≠ 0 →
      (nsf_init_load_nes_rom f).1 = EspErr.ok ∧
      (∀ i, i < 8 →
        (nsf_init_load_nes_rom f).2.nes_memory.rom_block i = some (i * 4096)) ∧
      (∀ j, (nsf_init_load_nes_rom f).2.nes_memory.rom j =
        if f.header.load_address - 0x8000 ≤ j ∧
            j < f.header.load_address - 0x8000 + (0xFFFF - f.header.load_address) then
          fileByteD f.file (0x080 + (j - (f.header.load_address - 0x8000)))
        else 0)) := by
  unfold nsf_init_load_nes_rom
  rw [if_neg (by omega)]
  dsimp only
  constructor
  · intro hn
    rw [if_pos hn]
  · intro hn
    rw [if_neg hn]
    refine ⟨rfl, ?_, ?_⟩
    · intro i hi
      dsimp only
      rw [if_pos hi]
    · intro j
      dsimp only
      unfold writeRead freadLen fileByteD
      dsimp only
      split
      · rename_i hin
        rw [if_pos (by omega), if_pos (by omega)]
      · rename_i hout
        by_cases hR : f.header.load_address - 0x8000 ≤ j ∧
            j < f.header.load_address - 0x8000 + (0xFFFF - f.header.load_address)
        · rw [if_pos hR, if_neg (by omega)]
        · rw [if_neg hR]

/-- C7 (counterexample): a non-bankswitched file with `load_address = $8000`
but an empty body (only the 128-byte header) makes `fread` return 0 bytes, so
the memory phase of `playback_init` fails with `ESP_FAIL` and no window is
pointed at the buffer -- the maximal short read is an error, not a warning,
refuting the claim as stated. -/
theorem c7_short_read_error_counterexample :
    baseNsf.header.bankswitch_init = [0, 0, 0, 0, 0, 0, 0, 0] ∧
    0x8000 ≤ baseNsf.header.load_address ∧
    (nsf_playback_init baseNsf 0 true).1 = EspErr.fail ∧
    (nsf_playback_init baseNsf 0 true).2.nes_memory.rom_block 0 = none := by
  decide

/-- C7 (amended): for every instance whose header has `bankswitch_init` all
zero and `load_address ≥ $8000`, the memory phase of `playback_init` uses the
contiguous loader on the zeroed 32 KiB buffer: it seeks to `0x080` and reads
up to `0xFFFF - load_address` bytes at buffer offset `load_address - 0x8000`.
If the read returns no bytes the init fails with `ESP_FAIL`; otherwise a
partial short read is only a warning: the init succeeds, the eight ROM
windows point at consecutive 4 KiB slices of the buffer, and the buffer holds
exactly the file bytes from `0x080` (zero past EOF and outside the read
window). In particular, on the concrete scenario (`load = $8000`, body =
8192 bytes of `0xAB`, a short read) `read(0x8000) = 0xAB`,
`read(0x9FFF) = 0xAB`, `read(0xA000) = 0x00`. -/
theorem c7_contiguous_load (nsf : NsfFile) (song : Nat) (cb : Bool)
    (hbs : nsf.header.bankswitch_init = [0, 0, 0, 0, 0, 0, 0, 0])
    (hload : 0x8000 ≤ nsf.header.load_address) :
    (freadLen nsf.file 0x080 (0xFFFF - nsf.header.load_address) = 0 →
      (nsf_playback_init nsf song cb).1 = EspErr.fail) ∧
    (freadLen nsf.file 0x080 (0xFFFF - nsf.header.load_address) ≠ 0 →
      (nsf_playback_init nsf song cb).1 = EspErr.ok ∧
      (∀ i, i < 8 →
        (nsf_playback_init nsf song cb).2.nes_memory.rom_block i = some (i * 4096)) ∧
      (∀ j, (nsf_playback_init nsf song cb).2.nes_memory.rom j =
        if nsf.header.load_address - 0x8000 ≤ j ∧
            j < nsf.header.load_address - 0x8000 + (0xFFFF - nsf.header.load_address) then
          fileByteD nsf.file (0x080 + (j - (nsf.header.load_address - 0x8000)))
        else 0)) ∧
    (nsf_playback_init c7_nsf 0 true).1 = EspErr.ok ∧
    (read6502 (some (nsf_playback_init c7_nsf 0 true).2) 0x8000).1 = 0xAB ∧
    (read6502 (some (nsf_playback_init c7_nsf 0 true).2) 0x9FFF).1 = 0xAB ∧
    (read6502 (some (nsf_playback_init c7_nsf 0 true).2) 0xA000).1 = 0 := by
  have hbsf : ¬(nsf_has_bank_switching
      (nsf_init_nes_prg (nsf_init_nes_memory
        (NsfFile.mk nsf.file nsf.header nsf.nes_memory cb)) song 0) = true) := by
    unfold nsf_has_bank_switching nsf_init_nes_prg nsf_init_nes_memory
    dsimp only
    rw [hbs]
    decide
  have hpb : nsf_playback_init nsf song cb =
      nsf_init_load_nes_rom (nsf_init_nes_prg (nsf_init_nes_memory
        (NsfFile.mk nsf.file nsf.header nsf.nes_memory cb)) song 0) := by
    unfold nsf_playback_init
    dsimp only
    rw [if_neg hbsf]
  refine ⟨?_, ?_, by decide, by decide, by decide, by decide⟩
  · intro hn
    rw [hpb]
    exact (nsf_init_load_nes_rom_eval
      (nsf_init_nes_prg (nsf_init_nes_memory
        (NsfFile.mk nsf.file nsf.header nsf.nes_memory cb)) song 0) hload).1 hn
  · intro hn
    rw [hpb]
    obtain ⟨h1, h2, h3⟩ := (nsf_init_load_nes_rom_eval
      (nsf_init_nes_prg (nsf_init_nes_memory
        (NsfFile.mk nsf.file nsf.header nsf.nes_memory cb)) song 0) hload).2 hn
    exact ⟨h1, h2, h3⟩

/-- Witness for C7 (amended) at the concrete scenario instance (`load =
$8000`, 8192-byte body, a nonzero short read). -/
theorem c7_contiguous_load_witness :
    c7_nsf.header.bankswitch_init = [0, 0, 0, 0, 0, 0, 0, 0] ∧
    0x8000 ≤ c7_nsf.header.load_address ∧
    freadLen c7_nsf.file 0x080 (0xFFFF - c7_nsf.header.load_address) ≠ 0 ∧
    ((nsf_playback_init c7_nsf 5 true).1 = EspErr.ok ∧
     (∀ i, i < 8 →
       (nsf_playback_init c7_nsf 5 true).2.nes_memory.rom_block i = some (i * 4096)) ∧
     (∀ j, (nsf_playback_init c7_nsf 5 true).2.nes_memory.rom j =
       if c7_nsf.header.load_address - 0x8000 ≤ j ∧
           j < c7_nsf.header.load_address - 0x8000 + (0xFFFF - c7_nsf.header.load_address) then
         fileByteD c7_nsf.file (0x080 + (j - (c7_nsf.header.load_address - 0x8000)))
       else 0)) :=
  ⟨by decide, by decide, by decide,
   (c7_contiguous_load c7_nsf 5 true (by decide) (by decide)).2.1 (by decide)⟩

/-- C3 (counterexample): from a state whose shadow bank register already
holds 0 (as after `nsf_init_nes_memory`), writing 0 to `$5FF8` twice
triggers zero bank loads, not exactly one. -/
theorem c3_idempotence_counterexample :
    countBankLoads ((write6502 (some baseNsf) 0x5FF8 0).2 ++
      (write6502 (write6502 (some baseNsf) 0x5FF8 0).1 0x5FF8 0).2) = 0 ∧
    ¬(countBankLoads ((write6502 (some baseNsf) 0x5FF8 0).2 ++
        (write6502 (write6502 (some baseNsf) 0x5FF8 0).1 0x5FF8 0).2) = 1) := by
  constructor
  · decide
  · decide

/-- C1 (bug demonstration): banks 1..8 are the initial windows; banks 9, 10,
11 are then loaded through register `$5FFF`. Bank 11's load evicts bank 1
(the LRU tail) from slot 0 and reuses the slot, but window 0 -- which still
references slot 0 with recorded bank ID 1 -- is NOT cleared, because the
clean-up loop compares each window's recorded bank ID with the evicted slot
index instead of the evicted bank ID (nsf.c:541), contradicting the comment
above it. Afterwards window 0 points at a slot whose bank ID is 11 while the
window records bank ID 1: invariant P3 is violated. -/
theorem c1_eviction_leaves_stale_window :
    (nsf_init_load_nes_rom_banks c1_nsf).1 = EspErr.ok ∧
    c1_before.nes_memory.rom_bank_use_order 9 = 1 ∧
    c1_before.nes_memory.rom_block 0 = some 0 ∧
    c1_before.nes_memory.rom_block_bank_id 0 = 1 ∧
    c1_before.nes_memory.rom_bank_id 0 = 1 ∧
    (∀ i, i < 10 → c1_before.nes_memory.rom_bank_loaded i ≠ 0) ∧
    (nsf_load_rom_bank c1_before 0x5FFF 11).1 = EspErr.ok ∧
    c1_final.nes_memory.rom_block 0 = some 0 ∧
    c1_final.nes_memory.rom_block_bank_id 0 = 1 ∧
    c1_final.nes_memory.rom_bank_id 0 = 11 ∧
    c1_final.nes_memory.rom_bank_loaded 0 ≠ 0 ∧
    windowConsistent c1_final.nes_memory = false := by
  decide

/-- C3 (amended): writing `value` twice in succession to a bank register
`$5FF8+i` triggers exactly one bank load when the shadow register initially
differs from `value`, and zero bank loads when it already equals `value`
(so never more than one, but "exactly one" fails for every starting state
whose shadow already holds the written value). -/
theorem c3_bank_register_loads (nsf : NsfFile) (address value : Nat)
    (h1 : 0x5FF8 ≤ address) (h2 : address ≤ 0x5FFF) :
    (nsf.nes_memory.bank_regs (address - 0x5FF8) ≠ value →
      countBankLoads ((write6502 (some nsf) address value).2 ++
        (write6502 (write6502 (some nsf) address value).1 address value).2) = 1) ∧
    (nsf.nes_memory.bank_regs (address - 0x5FF8) = value →
      countBankLoads ((write6502 (some nsf) address value).2 ++
        (write6502 (write6502 (some nsf) address value).1 address value).2) = 0) := by
  constructor
  · intro hd
    rw [write6502_bank_register nsf address value h1 h2, if_pos hd]
    dsimp only
    rw [write6502_bank_register _ address value h1 h2]
    have hkey : ((nsf_load_rom_bank
        { nsf with nes_memory := { nsf.nes_memory with
            bank_regs := updFn nsf.nes_memory.bank_regs (address - 0x5FF8) value } }
        address value).2).nes_memory.bank_regs (address - 0x5FF8) = value := by
      rw [nsf_load_rom_bank_bank_regs]
      dsimp only
      exact updFn_self _ _ _
    rw [if_neg (not_not_intro hkey)]
    rfl
  · intro hd
    rw [write6502_bank_register nsf address value h1 h2, if_neg (not_not_intro hd)]
    dsimp only
    rw [write6502_bank_register nsf address value h1 h2, if_neg (not_not_intro hd)]
    rfl

/-- Witness for C3 (amended): on the zero-shadow baseline state, writing 1 to
`$5FF8` twice triggers exactly one bank load, and writing 0 twice triggers
none. -/
theorem c3_bank_register_loads_witness :
    baseNsf.nes_memory.bank_regs (0x5FF8 - 0x5FF8) ≠ 1 ∧
    countBankLoads ((write6502 (some baseNsf) 0x5FF8 1).2 ++
      (write6502 (write6502 (some baseNsf) 0x5FF8 1).1 0x5FF8 1).2) = 1 ∧
    countBankLoads ((write6502 (some baseNsf) 0x5FF8 0).2 ++
      (write6502 (write6502 (some baseNsf) 0x5FF8 0).1 0x5FF8 0).2) = 0 :=
  ⟨by decide,
   (c3_bank_register_loads baseNsf 0x5FF8 1 (by decide) (by decide)).1 (by decide),
   (c3_bank_register_loads baseNsf 0x5FF8 0 (by decide) (by decide)).2 (by decide)⟩

/-- The memory image produced by the eviction path of `nsf_load_rom_bank`
(cache full, bank absent, LRU bank in slot `s`) just before the final
`mark_rom_bank_used`: tail entry cleared, slot `s` evicted, window clean-up
loop run, slot zeroed and refilled from the file, slot and window metadata
committed. Proof abbreviation for the corresponding branch of
`nsf_load_rom_bank`. -/
def evictedLoadMemory (nsf : NsfFile) (reg bank s : Nat) : NesMemory :=
  let m := nsf.nes_memory
  let m1 := { m with
    rom_bank_use_order := updFn m.rom_bank_use_order 9 (-1),
    rom_bank_loaded := updFn m.rom_bank_loaded s 0,
    rom_bank_id := updFn m.rom_bank_id s 0 }
  let m2 := clear_evicted_window m1 s
  let m3 := { m2 with
    rom := nsf_load_bank_data nsf.file (nsf.header.load_address % 4096) bank s m2.rom,
    rom_bank_loaded := updFn m2.rom_bank_loaded s 0 }
  { m3 with
    rom_bank_loaded := updFn m3.rom_bank_loaded s 1,
    rom_bank_id := updFn m3.rom_bank_id s bank,
    rom_block := updFn m3.rom_block (reg - 0x5FF8) (some (s * 4096)),
    rom_block_bank_id := updFn m3.rom_block_bank_id (reg - 0x5FF8) bank }

theorem evictedLoadMemory_rom_bank_id (nsf : NsfFile) (reg bank s : Nat) :
    (evictedLoadMemory nsf reg bank s).rom_bank_id =
      updFn (updFn nsf.nes_memory.rom_bank_id s 0) s bank := by
  unfold evictedLoadMemory
  dsimp only
  rw [clear_evicted_window_rom_bank_id]

theorem evictedLoadMemory_rom_bank_loaded (nsf : NsfFile) (reg bank s : Nat) :
    (evictedLoadMemory nsf reg bank s).rom_bank_loaded =
      updFn (updFn (updFn nsf.nes_memory.rom_bank_loaded s 0) s 0) s 1 := by
  unfold evictedLoadMemory
  dsimp only
  rw [clear_evicted_window_rom_bank_loaded]

theorem evictedLoadMemory_rom_bank_use_order (nsf : NsfFile) (reg bank s : Nat) :
    (evictedLoadMemory nsf reg bank s).rom_bank_use_order =
      updFn nsf.nes_memory.rom_bank_use_order 9 (-1) := by
  unfold evictedLoadMemory
  dsimp only
  rw [clear_evicted_window_rom_bank_use_order]

/-- C2: from any cache state satisfying the module invariants in which all
ten slots are occupied, loading a bank `bank` that is not currently cached
through a valid register evicts exactly the bank `b` at the tail of
`use_order` (`rom_bank_use_order[9]`): the load succeeds, the evicted bank's
slot `s` is reused for the new bank, every other slot keeps its bank, the
evicted bank is no longer cached anywhere, and it no longer occurs in
`use_order`. The invariant hypotheses: all slots loaded, `bank` absent,
`b` sits at the tail and in slot `s` only, and `b` and `bank` occur in
`use_order` at most at the tail and nowhere, respectively. -/
theorem c2_eviction_order (nsf : NsfFile) (reg bank b s : Nat)
    (hr1 : 0x5FF8 ≤ reg) (hr2 : reg ≤ 0x5FFF)
    (hfull : ∀ i, i < 10 → nsf.nes_memory.rom_bank_loaded i ≠ 0)
    (hmiss : ∀ i, i < 10 → nsf.nes_memory.rom_bank_id i ≠ bank)
    (htail : nsf.nes_memory.rom_bank_use_order 9 = (b : Int))
    (hs : s < 10) (hslot : nsf.nes_memory.rom_bank_id s = b)
    (huniq : ∀ i, i < 10 → nsf.nes_memory.rom_bank_id i = b → i = s)
    (horder : ∀ k, k < 9 → nsf.nes_memory.rom_bank_use_order k ≠ (b : Int))
    (hnew : ∀ k, k < 10 → nsf.nes_memory.rom_bank_use_order k ≠ (bank : Int)) :
    (nsf_load_rom_bank nsf reg bank).1 = EspErr.ok ∧
    (nsf_load_rom_bank nsf reg bank).2.nes_memory.rom_bank_id s = bank ∧
    (nsf_load_rom_bank nsf reg bank).2.nes_memory.rom_bank_loaded s = 1 ∧
    (∀ i, i < 10 → i ≠ s →
      (nsf_load_rom_bank nsf reg bank).2.nes_memory.rom_bank_id i =
        nsf.nes_memory.rom_bank_id i ∧
      (nsf_load_rom_bank nsf reg bank).2.nes_memory.rom_bank_loaded i =
        nsf.nes_memory.rom_bank_loaded i) ∧
    (∀ i, i < 10 →
      ¬((nsf_load_rom_bank nsf reg bank).2.nes_memory.rom_bank_loaded i ≠ 0 ∧
        (nsf_load_rom_bank nsf reg bank).2.nes_memory.rom_bank_id i = b)) ∧
    (∀ k, k < 10 →
      (nsf_load_rom_bank nsf reg bank).2.nes_memory.rom_bank_use_order k ≠ (b : Int)) := by
  have hbb : b ≠ bank := fun h => hmiss s hs (h ▸ hslot)
  have hfind1 : findIdx (fun i => (nsf.nes_memory.rom_bank_loaded i != 0) &&
      (nsf.nes_memory.rom_bank_id i == bank)) 0 10 = none := by
    apply findIdx_eq_none
    intro j hj1 hj2
    have hj : (nsf.nes_memory.rom_bank_id j == bank) = false :=
      beq_eq_false_iff_ne.mpr (hmiss j (by omega))
    simp [hj]
  have hfind2 : findIdx (fun i => nsf.nes_memory.rom_bank_loaded i == 0) 0 10 = none := by
    apply findIdx_eq_none
    intro j hj1 hj2
    exact beq_eq_false_iff_ne.mpr (hfull j (by omega))
  have hfind3 : findIdx (fun i =>
      ((nsf.nes_memory.rom_bank_id i : Int) == (b : Int))) 0 10 = some s := by
    apply findIdx_eq_first _ 10 0 s (by omega) (by omega)
    · exact beq_iff_eq.mpr (by exact_mod_cast hslot)
    · intro j hj1 hj2
      apply beq_eq_false_iff_ne.mpr
      intro hcast
      have hjb : nsf.nes_memory.rom_bank_id j = b := by exact_mod_cast hcast
      have := huniq j (by omega) hjb
      omega
  have hchoose : choose_bank_slot nsf.nes_memory =
      some (s, clear_evicted_window { nsf.nes_memory with
        rom_bank_use_order := updFn nsf.nes_memory.rom_bank_use_order 9 (-1),
        rom_bank_loaded := updFn nsf.nes_memory.rom_bank_loaded s 0,
        rom_bank_id := updFn nsf.nes_memory.rom_bank_id s 0 } s) := by
    unfold choose_bank_slot
    rw [hfind2]
    dsimp only
    rw [htail]
    rw [if_neg (by omega)]
    rw [hfind3]
  have hload : nsf_load_rom_bank nsf reg bank =
      (EspErr.ok,
       { nsf with nes_memory := mark_rom_bank_used (evictedLoadMemory nsf reg bank s) bank }) := by
    unfold nsf_load_rom_bank evictedLoadMemory
    rw [if_neg (by omega)]
    dsimp only
    rw [hfind1]
    dsimp only
    rw [hchoose]
  have hord : (evictedLoadMemory nsf reg bank s).rom_bank_use_order =
      updFn nsf.nes_memory.rom_bank_use_order 9 (-1) :=
    evictedLoadMemory_rom_bank_use_order nsf reg bank s
  have h0 : (evictedLoadMemory nsf reg bank s).rom_bank_use_order 0 ≠ (bank : Int) := by
    rw [hord, updFn_ne _ _ _ _ (by omega)]
    exact hnew 0 (by omega)
  have hn : ∀ j, 1 ≤ j → j < 10 →
      (evictedLoadMemory nsf reg bank s).rom_bank_use_order j ≠ (bank : Int) := by
    intro j hj1 hj2
    rw [hord]
    by_cases hj9 : j = 9
    · rw [hj9, updFn_self]
      omega
    · rw [updFn_ne _ _ _ _ hj9]
      exact hnew j (by omega)
  have ht4 : (evictedLoadMemory nsf reg bank s).rom_bank_use_order 9 = -1 := by
    rw [hord]
    exact updFn_self _ _ _
  have hmark := mark_rom_bank_used_insert (evictedLoadMemory nsf reg bank s) bank h0 hn ht4
  refine ⟨?_, ?_, ?_, ?_, ?_, ?_⟩
  · rw [hload]
  · rw [hload]
    dsimp only
    rw [mark_rom_bank_used_rom_bank_id, evictedLoadMemory_rom_bank_id]
    exact updFn_self _ _ _
  · rw [hload]
    dsimp only
    rw [mark_rom_bank_used_rom_bank_loaded, evictedLoadMemory_rom_bank_loaded]
    exact updFn_self _ _ _
  · intro i hi hne
    rw [hload]
    dsimp only
    rw [mark_rom_bank_used_rom_bank_id, mark_rom_bank_used_rom_bank_loaded,
      evictedLoadMemory_rom_bank_id, evictedLoadMemory_rom_bank_loaded]
    rw [updFn_ne _ _ _ _ hne, updFn_ne _ _ _ _ hne, updFn_ne _ _ _ _ hne,
      updFn_ne _ _ _ _ hne, updFn_ne _ _ _ _ hne]
    exact ⟨rfl, rfl⟩
  · intro i hi
    rw [hload]
    dsimp only
    rw [mark_rom_bank_used_rom_bank_id, mark_rom_bank_used_rom_bank_loaded,
      evictedLoadMemory_rom_bank_id, evictedLoadMemory_rom_bank_loaded]
    rintro ⟨hL, hI⟩
    by_cases his : i = s
    · rw [his, updFn_self] at hI
      exact hbb hI.symm
    · rw [updFn_ne _ _ _ _ his, updFn_ne _ _ _ _ his] at hI
      exact his (huniq i hi hI)
  · intro k hk
    rw [hload]
    dsimp only
    rw [hmark]
    dsimp only
    by_cases hk0 : k = 0
    · rw [if_pos hk0]
      intro hc
      exact hbb (by exact_mod_cast hc.symm)
    · rw [if_neg hk0, if_pos (by omega), hord]
      by_cases hk9 : k - 1 = 9
      · rw [hk9, updFn_self]
        omega
      · rw [updFn_ne _ _ _ _ hk9]
        exact horder (k - 1) (by omega)

/-- A full cache for the eviction-order witness: slot `i` holds bank `i + 1`,
`use_order = [10, 9, ..., 2, 1]` (bank 1 in slot 0 is the LRU tail). -/
def c2_memory : NesMemory :=
  { zeroNesMemory with
    rom_bank_id := fun i => if i < 10 then i + 1 else 0,
    rom_bank_loaded := fun i => if i < 10 then 1 else 0,
    rom_bank_use_order := fun k => if k < 10 then ((10 - k : Nat) : Int) else -1 }

/-- Open instance around `c2_memory`. -/
def c2_nsf : NsfFile := { baseNsf with nes_memory := c2_memory }

/-- Witness for C2: loading the uncached bank 11 into the full cache
`c2_memory` evicts bank 1 (the tail of `use_order`) from slot 0. -/
theorem c2_eviction_order_witness :
    (nsf_load_rom_bank c2_nsf 0x5FF8 11).1 = EspErr.ok ∧
    (nsf_load_rom_bank c2_nsf 0x5FF8 11).2.nes_memory.rom_bank_id 0 = 11 ∧
    (nsf_load_rom_bank c2_nsf 0x5FF8 11).2.nes_memory.rom_bank_loaded 0 = 1 ∧
    (∀ i, i < 10 → i ≠ 0 →
      (nsf_load_rom_bank c2_nsf 0x5FF8 11).2.nes_memory.rom_bank_id i =
        c2_nsf.nes_memory.rom_bank_id i ∧
      (nsf_load_rom_bank c2_nsf 0x5FF8 11).2.nes_memory.rom_bank_loaded i =
        c2_nsf.nes_memory.rom_bank_loaded i) ∧
    (∀ i, i < 10 →
      ¬((nsf_load_rom_bank c2_nsf 0x5FF8 11).2.nes_memory.rom_bank_loaded i ≠ 0 ∧
        (nsf_load_rom_bank c2_nsf 0x5FF8 11).2.nes_memory.rom_bank_id i = 1)) ∧
    (∀ k, k < 10 →
      (nsf_load_rom_bank c2_nsf 0x5FF8 11).2.nes_memory.rom_bank_use_order k ≠ ((1 : Nat) : Int)) :=
  c2_eviction_order c2_nsf 0x5FF8 11 1 0 (by decide) (by decide) (by decide)
    (by decide) (by decide) (by decide) (by decide) (by decide) (by decide) (by decide)
